import Mathlib

/-!
Shallow embedding of the blogging backend (Express + Sequelize).

Sources embedded:
- `database.mjs` (`loadSequelize`): three Sequelize models (`User`, `Post`,
  `Comment`), their associations, and `sequelize.sync with force true`.
- `app.mjs`: the JWT cookie middleware `isLoggedInJWT` and the route handlers
  for register, login, listing users, listing posts, creating posts and
  comments, and deleting posts and comments.

Modelling conventions:
- Database rows are Lean structures; each table is a `List` of rows inside a
  `DB` state, together with an auto-increment counter per table (MySQL primary
  keys restart at 1 after a forced sync).
- `findByPk` / `findOne` become `List.find?`; `create` appends a row with the
  next counter value; `destroy` filters the row with the given primary key out.
- The associations emit enforced foreign keys (MySQL InnoDB): an insert whose
  `UserId` matches no user row throws a constraint error, which the route's
  catch maps to 500; and the foreign keys are nullable, so Sequelize defaults
  them to ON DELETE SET NULL — destroying a post sets the `PostId` of its
  comments to NULL (hence `CommentRow.PostId : Option Nat`). No route deletes
  users, so the SET NULL on `UserId` columns is unreachable and those stay
  `Nat`.
- JWTs are modelled as a record carrying the payload user id, the secret the
  token was signed with, and an expiry flag; `jwt.verify` succeeds exactly when
  the secret matches `JWT_SECRET` and the token is not expired, which is the
  contract of the `jsonwebtoken` library that the middleware relies on.
- `bcrypt.hash` is modelled as an injective tagging function and
  `bcrypt.compare` as the matching check, the contract of the `bcrypt` library.
- Each route is a function from the request parts it reads (cookie token, path
  parameters, body fields) and the current `DB` to an HTTP status code and the
  next `DB` (login additionally returns its response message and the cookie it
  sets; the read-only routes return a JSON document).
- JavaScript body fields may be absent, so they are `Option String`, and the
  truthiness test `!x` of the source is `falsy` (absent or empty string).
-/

/-- A row of the `User` table: `sequelize.define "User"` with columns
`username`, `email`, `password` (all STRING) plus the implicit `id` key.
`username` is nullable and never written by any route, hence `Option`. -/
structure UserRow where
  id : Nat
  username : Option String
  email : String
  password : String
  deriving Repr, DecidableEq

/-- A row of the `Post` table: columns `title`, `content` plus the implicit
`id` and the `UserId` foreign key added by `User.hasMany Post`. -/
structure PostRow where
  id : Nat
  title : String
  content : String
  UserId : Nat
  deriving Repr, DecidableEq

/-- A row of the `Comment` table: column `content` plus the implicit `id` and
the `PostId` / `UserId` foreign keys added by the associations. `PostId` is a
nullable foreign key: deleting the referenced post sets it to NULL. -/
structure CommentRow where
  id : Nat
  content : String
  PostId : Option Nat
  UserId : Nat
  deriving Repr, DecidableEq

/-- The relational state: the three tables and one auto-increment counter
per table. -/
structure DB where
  users : List UserRow
  posts : List PostRow
  comments : List CommentRow
  nextUserId : Nat
  nextPostId : Nat
  nextCommentId : Nat
  deriving Repr, DecidableEq

/-- The freshly synchronized state: empty tables, counters restarted. -/
def emptyDB : DB :=
  { users := [], posts := [], comments := [],
    nextUserId := 1, nextPostId := 1, nextCommentId := 1 }

/-- `sequelize.sync` with `force: true`: every table is dropped and
recreated, so whatever rows existed are discarded. -/
def sequelizeSyncForce (_db : DB) : DB := emptyDB

/-- `loadSequelize` from `database.mjs`: connects and then runs
`sequelize.sync` with the force option on the existing database state. -/
def loadSequelize (db : DB) : DB := sequelizeSyncForce db

/-- `User.findByPk` -/
def findUserByPk (db : DB) (pk : Nat) : Option UserRow :=
  db.users.find? (fun u => u.id == pk)

/-- `Post.findByPk` -/
def findPostByPk (db : DB) (pk : Nat) : Option PostRow :=
  db.posts.find? (fun p => p.id == pk)

/-- `Comment.findByPk` -/
def findCommentByPk (db : DB) (pk : Nat) : Option CommentRow :=
  db.comments.find? (fun c => c.id == pk)

/-- `User.findOne` with a `where` clause on `email`. -/
def findUserByEmail (db : DB) (e : String) : Option UserRow :=
  db.users.find? (fun u => u.email == e)

/-- The hard-coded signing secret of `app.mjs`. -/
def JWT_SECRET : String := "Non_non_non_tu_ne_rentrera_pas_comme_ça"

/-- A JWT as far as this application observes it: the `userId` claim of its
payload, the secret it was signed with, and whether its 12-hour expiry has
passed at verification time. -/
structure Token where
  userId : Nat
  secret : String
  expired : Bool
  deriving Repr, DecidableEq

/-- `jwt.verify token JWT_SECRET`: returns the decoded `userId` claim when the
signature matches the secret and the token is not expired, and fails (the
library throws) otherwise. -/
def jwtVerify (t : Token) : Option Nat :=
  if t.secret == JWT_SECRET && !t.expired then some t.userId else none

/-- `jwt.sign` with the `userId` payload, the secret, and a 12-hour expiry:
produces a token that verifies (until it expires). -/
def jwtSign (uid : Nat) : Token :=
  { userId := uid, secret := JWT_SECRET, expired := false }

/-- `bcrypt.hash password saltRounds`: an opaque salted hash; what the
application relies on is that `bcrypt.compare` recognizes it. -/
def bcryptHash (password : String) : String := "bcrypt$" ++ password

/-- `bcrypt.compare candidate storedHash`: true exactly when `storedHash` is a
hash of `candidate`. -/
def bcryptCompare (candidate storedHash : String) : Bool :=
  storedHash == bcryptHash candidate

/-- JavaScript truthiness test `!x` on an optional string body field: the
field is falsy when absent (`undefined`) or the empty string. -/
def falsy : Option String → Bool
  | none => true
  | some s => s == ""

/-- The `isLoggedInJWT` middleware of `app.mjs` composed with a protected
route handler: no `token` cookie answers 401 without running the handler; a
cookie whose verification fails answers 403 without running the handler; a
verified cookie attaches the decoded user id and runs the handler. -/
def isLoggedInJWT (cookieToken : Option Token)
    (handler : Nat → DB → Nat × DB) (db : DB) : Nat × DB :=
  match cookieToken with
  | none => (401, db)
  | some tok =>
    match jwtVerify tok with
    | some uid => handler uid db
    | none => (403, db)

/-- `POST /register`: validates presence of the three fields and equality of
`password` and `verifiedPassword`, then hashes the password and inserts the
user row (`username` is never supplied, so it is stored NULL). No uniqueness
check is made anywhere, and the `email` column carries no unique constraint,
so the insert always succeeds. Returns the HTTP status and the next state. -/
def registerRoute (db : DB) (email password verifiedPassword : Option String) :
    Nat × DB :=
  if falsy email || falsy password || falsy verifiedPassword then (400, db)
  else if password ≠ verifiedPassword then (400, db)
  else
    let u : UserRow :=
      { id := db.nextUserId, username := none,
        email := email.getD "", password := bcryptHash (password.getD "") }
    (201, { db with users := db.users ++ [u], nextUserId := db.nextUserId + 1 })

/-- The response of `POST /login`: status, JSON message, and the `token`
cookie it sets on success. -/
structure LoginResp where
  status : Nat
  message : String
  cookie : Option Token
  deriving Repr, DecidableEq

/-- `POST /login`: 400 on a missing field; otherwise looks the user up by
email and compares the password against the stored bcrypt hash. Both failure
paths (unknown email, wrong password) answer 401 with the same body; success
signs a 12-hour token and sets the cookie. -/
def loginRoute (db : DB) (email password : Option String) : LoginResp :=
  if falsy email || falsy password then
    { status := 400, message := "Email et mot de passe sont requis",
      cookie := none }
  else
    match findUserByEmail db (email.getD "") with
    | none =>
      { status := 401, message := "Email ou mot de passe invalide",
        cookie := none }
    | some user =>
      if bcryptCompare (password.getD "") user.password then
        { status := 200, message := "connexion avec succés",
          cookie := some (jwtSign user.id) }
      else
        { status := 401, message := "Email ou mot de passe invalide",
          cookie := none }

/-- The handler body of `POST /post` (runs after `isLoggedInJWT`): creates a
post attributed to the authenticated user and answers with the default 200.
The enforced foreign key on `Posts.UserId` makes `Post.create` throw when the
token's user id matches no user row (tokens outlive the boot-time resync), and
the catch answers 500. -/
def createPostHandler (title content : String) (uid : Nat) (db : DB) :
    Nat × DB :=
  match findUserByPk db uid with
  | none => (500, db)
  | some _user =>
    let p : PostRow :=
      { id := db.nextPostId, title := title, content := content,
        UserId := uid }
    (200, { db with
            posts := db.posts ++ [p],
            nextPostId := db.nextPostId + 1 })

/-- `POST /post` with its middleware. -/
def createPostRoute (db : DB) (cookieToken : Option Token)
    (title content : String) : Nat × DB :=
  isLoggedInJWT cookieToken (createPostHandler title content) db

/-- The handler body of `POST /posts/:postId/comments`: 404 when the path id
matches no post; otherwise `Comment.create` inserts a comment whose `PostId`
is the path id and whose `UserId` is the authenticated id, answering 201 —
unless the enforced foreign key on `Comments.UserId` rejects the insert
because no user row carries the token's id (tokens outlive the boot-time
resync), in which case the catch answers 500. The `PostId` foreign key is
satisfied because the post was just found. -/
def createCommentHandler (pathPostId : Nat) (content : String)
    (uid : Nat) (db : DB) : Nat × DB :=
  match findPostByPk db pathPostId with
  | none => (404, db)
  | some _post =>
    match findUserByPk db uid with
    | none => (500, db)
    | some _user =>
      let c : CommentRow :=
        { id := db.nextCommentId, content := content,
          PostId := some pathPostId, UserId := uid }
      (201, { db with
              comments := db.comments ++ [c],
              nextCommentId := db.nextCommentId + 1 })

/-- `POST /posts/:postId/comments` with its middleware. -/
def createCommentRoute (db : DB) (cookieToken : Option Token)
    (pathPostId : Nat) (content : String) : Nat × DB :=
  isLoggedInJWT cookieToken (createCommentHandler pathPostId content) db

/-- The handler body of `DELETE /posts/:postId`: the target id is read from
the request body (`req.body.postId`), not from the path. `findByPk` of an
absent body field resolves to no row (404). An existing row owned by another
user answers 403 untouched; otherwise `post.destroy()` removes the row, and
the ON DELETE SET NULL referential action of the nullable `Comments.PostId`
foreign key nulls that column on every comment of the destroyed post. -/
def deletePostHandler (bodyPostId : Option Nat) (uid : Nat) (db : DB) :
    Nat × DB :=
  match bodyPostId.bind (findPostByPk db) with
  | none => (404, db)
  | some post =>
    if post.UserId ≠ uid then (403, db)
    else
      (200, { db with
              posts := db.posts.filter (fun p => p.id != post.id),
              comments := db.comments.map (fun c =>
                if c.PostId == some post.id then { c with PostId := none }
                else c) })

/-- `DELETE /posts/:postId` with its middleware. The `pathPostId` parameter is
received but never read by the handler. -/
def deletePostRoute (db : DB) (cookieToken : Option Token)
    (pathPostId : Nat) (bodyPostId : Option Nat) : Nat × DB :=
  let _ := pathPostId
  isLoggedInJWT cookieToken (deletePostHandler bodyPostId) db

/-- The handler body of `DELETE /comments/:commentId`: looks the comment up by
the path id; 404 when absent, 403 untouched when owned by another user, else
destroys it. -/
def deleteCommentHandler (pathCommentId : Nat) (uid : Nat) (db : DB) :
    Nat × DB :=
  match findCommentByPk db pathCommentId with
  | none => (404, db)
  | some comment =>
    if comment.UserId ≠ uid then (403, db)
    else
      (200, { db with
              comments := db.comments.filter (fun c => c.id != comment.id) })

/-- `DELETE /comments/:commentId` with its middleware. -/
def deleteCommentRoute (db : DB) (cookieToken : Option Token)
    (pathCommentId : Nat) : Nat × DB :=
  isLoggedInJWT cookieToken (deleteCommentHandler pathCommentId) db

/-- The JSON documents the read-only routes serialize into `response.json`. -/
inductive Json where
  | null : Json
  | str : String → Json
  | num : Nat → Json
  | arr : List Json → Json
  | obj : List (String × Json) → Json
  deriving Repr

/-- Serialization of a nullable string column. -/
def jsonOfOptStr : Option String → Json
  | none => Json.null
  | some s => Json.str s

/-- Serialization of a nullable numeric column (such as the `PostId` foreign
key after its post was destroyed). -/
def jsonOfOptNat : Option Nat → Json
  | none => Json.null
  | some n => Json.num n

/-- How `response.json(users)` serializes a user row when `User.findAll` is
called with no `attributes` option: every column, the stored password hash
included. -/
def serializeUserFull (u : UserRow) : Json :=
  Json.obj [("id", Json.num u.id), ("username", jsonOfOptStr u.username),
            ("email", Json.str u.email), ("password", Json.str u.password)]

/-- `GET /users`: `User.findAll()` serialized as-is. -/
def getUsersRoute (db : DB) : Nat × Json :=
  (200, Json.arr (db.users.map serializeUserFull))

/-- An included `User` restricted by `attributes: ["id", "email"]`. -/
def serializeUserPublic (u : UserRow) : Json :=
  Json.obj [("id", Json.num u.id), ("email", Json.str u.email)]

/-- A `belongsTo` include resolves to the owning row or JSON null. -/
def serializeOptUserPublic : Option UserRow → Json
  | none => Json.null
  | some u => serializeUserPublic u

/-- A comment as included by `GET /posts`: its own columns plus its author
under the `User` key, restricted to id and email. -/
def serializeCommentWithAuthor (db : DB) (c : CommentRow) : Json :=
  Json.obj [("id", Json.num c.id), ("content", Json.str c.content),
            ("PostId", jsonOfOptNat c.PostId), ("UserId", Json.num c.UserId),
            ("User", serializeOptUserPublic (findUserByPk db c.UserId))]

/-- A post as returned by `GET /posts`: its own columns, its author under the
`User` key restricted to id and email, and its comments (each with their
author restricted the same way) under the `Comments` key. -/
def serializePostFull (db : DB) (p : PostRow) : Json :=
  Json.obj [("id", Json.num p.id), ("title", Json.str p.title),
            ("content", Json.str p.content), ("UserId", Json.num p.UserId),
            ("User", serializeOptUserPublic (findUserByPk db p.UserId)),
            ("Comments",
             Json.arr ((db.comments.filter
                 (fun c => c.PostId == some p.id)).map
               (serializeCommentWithAuthor db)))]

/-- `GET /posts`: `Post.findAll` with the two nested includes, serialized. -/
def getPostsRoute (db : DB) : Nat × Json :=
  (200, Json.arr (db.posts.map (serializePostFull db)))

mutual

/-- Whether a key occurs in any object anywhere inside a JSON document. -/
def jsonHasKey : Json → String → Bool
  | Json.null, _ => false
  | Json.str _, _ => false
  | Json.num _, _ => false
  | Json.arr xs, k => jsonListHasKey xs k
  | Json.obj fs, k => jsonFieldsHasKey fs k

/-- `jsonHasKey` over the elements of an array. -/
def jsonListHasKey : List Json → String → Bool
  | [], _ => false
  | j :: js, k => jsonHasKey j k || jsonListHasKey js k

/-- `jsonHasKey` over the fields of an object. -/
def jsonFieldsHasKey : List (String × Json) → String → Bool
  | [], _ => false
  | f :: fs, k => f.1 == k || jsonHasKey f.2 k || jsonFieldsHasKey fs k

end

/-- The element list of a JSON array (empty for non-arrays). -/
def jsonArrElems : Json → List Json
  | Json.arr xs => xs
  | _ => []

/-- A sample stored user (as `POST /register` would store it). -/
def sampleUser : UserRow :=
  { id := 1, username := none, email := "b@x.com", password := bcryptHash "pw" }

/-- A sample post owned by user 1. -/
def samplePost : PostRow := { id := 1, title := "t", content := "c", UserId := 1 }

/-- A sample comment owned by user 1 on post 1. -/
def sampleComment : CommentRow :=
  { id := 1, content := "hello", PostId := some 1, UserId := 1 }

/-- A sample database state with one user, one post and one comment. -/
def sampleDB : DB :=
  { users := [sampleUser], posts := [samplePost], comments := [sampleComment],
    nextUserId := 2, nextPostId := 2, nextCommentId := 2 }

/-- A second sample stored user, with id 2. -/
def sampleUser2 : UserRow :=
  { id := 2, username := none, email := "c@x.com", password := bcryptHash "pw2" }

/-- The sample database extended with the second user. -/
def sampleDB2 : DB :=
  { users := [sampleUser, sampleUser2], posts := [samplePost],
    comments := [sampleComment],
    nextUserId := 3, nextPostId := 2, nextCommentId := 2 }

/-- A token of user 1 whose 12-hour expiry has passed. -/
def expiredToken : Token := { userId := 1, secret := JWT_SECRET, expired := true }

/- ------------------------------------------------------------------ -/
/- Theorems                                                            -/
/- ------------------------------------------------------------------ -/

/-- C9: `loadSequelize` runs `sequelize.sync` with `force: true` on every
process start, so whatever the database held before boot, afterwards all
three tables are empty. -/
theorem boot_resync_discards_rows (db : DB) :
    (loadSequelize db).users = [] ∧ (loadSequelize db).posts = [] ∧
      (loadSequelize db).comments = [] :=
  ⟨rfl, rfl, rfl⟩

/-- C2: on each mutating route (`POST /post`, `POST /posts/:postId/comments`,
`DELETE /posts/:postId`, `DELETE /comments/:commentId`), a request without the
`token` cookie answers 401 and a request whose cookie fails verification
answers 403, in both cases leaving the state untouched; the first conjunct,
quantified over an arbitrary handler, shows the middleware short-circuits
without running the route handler at all. -/
theorem mutating_routes_guarded (db : DB) (tok : Token)
    (hv : jwtVerify tok = none) :
    (∀ handler : Nat → DB → Nat × DB,
       isLoggedInJWT none handler db = (401, db) ∧
       isLoggedInJWT (some tok) handler db = (403, db)) ∧
    (∀ title content, createPostRoute db none title content = (401, db) ∧
       createPostRoute db (some tok) title content = (403, db)) ∧
    (∀ pid content, createCommentRoute db none pid content = (401, db) ∧
       createCommentRoute db (some tok) pid content = (403, db)) ∧
    (∀ pathId bodyId, deletePostRoute db none pathId bodyId = (401, db) ∧
       deletePostRoute db (some tok) pathId bodyId = (403, db)) ∧
    (∀ cid, deleteCommentRoute db none cid = (401, db) ∧
       deleteCommentRoute db (some tok) cid = (403, db)) := by
  refine ⟨fun handler => ⟨rfl, ?_⟩,
          fun title content => ⟨rfl, ?_⟩,
          fun pid content => ⟨rfl, ?_⟩,
          fun pathId bodyId => ⟨rfl, ?_⟩,
          fun cid => ⟨rfl, ?_⟩⟩ <;>
    simp [isLoggedInJWT, createPostRoute, createCommentRoute, deletePostRoute,
          deleteCommentRoute, hv]

/-- C2 witness: with an expired token of user 1 and an empty database, the
create-post route answers 401 without the cookie and 403 with it. -/
theorem mutating_routes_guarded_witness :
    jwtVerify expiredToken = none ∧
    createPostRoute emptyDB none "t" "c" = (401, emptyDB) ∧
    createPostRoute emptyDB (some expiredToken) "t" "c" = (403, emptyDB) ∧
    deleteCommentRoute emptyDB (some expiredToken) 5 = (403, emptyDB) :=
  ⟨by decide,
   ((mutating_routes_guarded emptyDB expiredToken (by decide)).2.1 "t" "c").1,
   ((mutating_routes_guarded emptyDB expiredToken (by decide)).2.1 "t" "c").2,
   ((mutating_routes_guarded emptyDB expiredToken
      (by decide)).2.2.2.2 5).2⟩

/-- C1: on both delete routes, a request with a valid token whose user id
differs from the `UserId` stored on the targeted existing row answers 403 and
leaves the state — hence the row — untouched. -/
theorem delete_other_owner_forbidden (db : DB) (tok : Token) (uid : Nat)
    (hv : jwtVerify tok = some uid) :
    (∀ pathId bodyId post, findPostByPk db bodyId = some post →
       post.UserId ≠ uid →
       deletePostRoute db (some tok) pathId (some bodyId) = (403, db)) ∧
    (∀ cid comment, findCommentByPk db cid = some comment →
       comment.UserId ≠ uid →
       deleteCommentRoute db (some tok) cid = (403, db)) := by
  constructor
  · intro pathId bodyId post hfind hne
    simp [deletePostRoute, isLoggedInJWT, hv, deletePostHandler, hfind, hne]
  · intro cid comment hfind hne
    simp [deleteCommentRoute, isLoggedInJWT, hv, deleteCommentHandler,
          hfind, hne]

/-- C1 witness: user 2 holding a valid token cannot delete post 1 or
comment 1, both owned by user 1; both answers are 403 with the state
unchanged. -/
theorem delete_other_owner_forbidden_witness :
    deletePostRoute sampleDB (some (jwtSign 2)) 9 (some 1) = (403, sampleDB) ∧
    deleteCommentRoute sampleDB (some (jwtSign 2)) 1 = (403, sampleDB) :=
  ⟨(delete_other_owner_forbidden sampleDB (jwtSign 2) 2 (by decide)).1
     9 1 samplePost (by decide) (by decide),
   (delete_other_owner_forbidden sampleDB (jwtSign 2) 2 (by decide)).2
     1 sampleComment (by decide) (by decide)⟩

/-- C4: the delete-post route is insensitive to the `:postId` path parameter
(first conjunct, any two path values give identical behavior), and the row it
looks up, ownership-checks and destroys is the one whose primary key is the
`postId` field of the request body (second conjunct); destroying it also
nulls the `PostId` of the destroyed post's comments, the referential action
of the nullable foreign key. -/
theorem delete_post_reads_body_id (db : DB) (ctok : Option Token)
    (path1 path2 : Nat) (bodyId : Option Nat) :
    deletePostRoute db ctok path1 bodyId = deletePostRoute db ctok path2 bodyId ∧
    (∀ tok uid pid post, ctok = some tok → jwtVerify tok = some uid →
       bodyId = some pid → findPostByPk db pid = some post →
       post.UserId = uid →
       deletePostRoute db ctok path1 bodyId =
         (200, { db with
                 posts := db.posts.filter (fun p => p.id != post.id),
                 comments := db.comments.map (fun c =>
                   if c.PostId == some post.id then { c with PostId := none }
                   else c) })) := by
  refine ⟨rfl, ?_⟩
  intro tok uid pid post hc hv hb hfind hown
  subst hc hb
  simp [deletePostRoute, isLoggedInJWT, hv, deletePostHandler, hfind, hown]

/-- C4 witness: user 1 deletes post 1 through the body field while the path
carries the unrelated id 999; the targeted row (body id 1) is removed and the
comment that referenced it has its `PostId` nulled. -/
theorem delete_post_reads_body_id_witness :
    deletePostRoute sampleDB (some (jwtSign 1)) 999 (some 1) =
      deletePostRoute sampleDB (some (jwtSign 1)) 123 (some 1) ∧
    deletePostRoute sampleDB (some (jwtSign 1)) 999 (some 1) =
      (200, { sampleDB with
              posts := sampleDB.posts.filter (fun p => p.id != samplePost.id),
              comments := sampleDB.comments.map (fun c =>
                if c.PostId == some samplePost.id then { c with PostId := none }
                else c) }) :=
  ⟨(delete_post_reads_body_id sampleDB (some (jwtSign 1)) 999 123 (some 1)).1,
   (delete_post_reads_body_id sampleDB (some (jwtSign 1)) 999 123 (some 1)).2
     (jwtSign 1) 1 1 samplePost rfl (by decide) rfl (by decide) (by decide)⟩

/-- C5: a register request with a missing (or empty, which JavaScript
truthiness treats the same) email, password or verifiedPassword, or whose two
password fields differ, answers 400 and writes nothing. -/
theorem register_invalid_400 (db : DB) (e p v : Option String)
    (h : falsy e = true ∨ falsy p = true ∨ falsy v = true ∨ p ≠ v) :
    registerRoute db e p v = (400, db) := by
  unfold registerRoute
  rcases h with h | h | h | h
  · simp [h]
  · simp [h]
  · simp [h]
  · cases hfe : (falsy e || falsy p || falsy v) with
    | true => simp [hfe]
    | false => simp [hfe, h]

/-- C5 witness: mismatched passwords are rejected with 400, and a missing
email is rejected with 400, both leaving the empty database empty. -/
theorem register_invalid_400_witness :
    registerRoute emptyDB (some "a@x.com") (some "p1") (some "p2") =
      (400, emptyDB) ∧
    registerRoute emptyDB none (some "p1") (some "p1") = (400, emptyDB) :=
  ⟨register_invalid_400 emptyDB (some "a@x.com") (some "p1") (some "p2")
     (Or.inr (Or.inr (Or.inr (by decide)))),
   register_invalid_400 emptyDB none (some "p1") (some "p1")
     (Or.inl (by decide))⟩

/-- C3 counterexample: the `email` column of the `User` model is declared as
a plain STRING with no unique constraint, so registering the same email twice
from the empty database succeeds a second time: the second response is 201
(not 500) and two rows with that email exist afterwards. -/
theorem register_duplicate_email_counterexample :
    (registerRoute
        (registerRoute emptyDB (some "a@x.com") (some "p1") (some "p1")).2
        (some "a@x.com") (some "p1") (some "p1")).1 = 201 ∧
    ((registerRoute
        (registerRoute emptyDB (some "a@x.com") (some "p1") (some "p1")).2
        (some "a@x.com") (some "p1") (some "p1")).2.users.filter
          (fun u => u.email == "a@x.com")).length = 2 :=
  ⟨rfl, rfl⟩

/-- C3 amended: since no unique constraint is declared on `email`, any valid
register request — in particular a second one with an already-registered
email — answers 201 and inserts one more row with that email. -/
theorem register_duplicate_email_succeeds (db : DB) (e p : String)
    (he : e ≠ "") (hp : p ≠ "") :
    (registerRoute db (some e) (some p) (some p)).1 = 201 ∧
    ((registerRoute db (some e) (some p) (some p)).2.users.filter
        (fun u => u.email == e)).length =
      (db.users.filter (fun u => u.email == e)).length + 1 := by
  have hfe : falsy (some e) = false := by
    simp [falsy]; exact he
  have hfp : falsy (some p) = false := by
    simp [falsy]; exact hp
  unfold registerRoute
  simp [hfe, hfp, List.filter_append]

/-- C3 amended witness: registering "a@x.com" on top of a state already
holding that email yields 201 and a second matching row. -/
theorem register_duplicate_email_succeeds_witness :
    ("a@x.com" : String) ≠ "" ∧
    ((registerRoute
        (registerRoute emptyDB (some "a@x.com") (some "p1") (some "p1")).2
        (some "a@x.com") (some "p1") (some "p1")).1 = 201 ∧
     ((registerRoute
        (registerRoute emptyDB (some "a@x.com") (some "p1") (some "p1")).2
        (some "a@x.com") (some "p1") (some "p1")).2.users.filter
          (fun u => u.email == "a@x.com")).length =
       ((registerRoute emptyDB (some "a@x.com") (some "p1")
          (some "p1")).2.users.filter
          (fun u => u.email == "a@x.com")).length + 1) :=
  ⟨by decide,
   register_duplicate_email_succeeds
     (registerRoute emptyDB (some "a@x.com") (some "p1") (some "p1")).2
     "a@x.com" "p1" (by decide) (by decide)⟩

/-- C6: a login request with both fields present and wrong credentials
answers with the very same response — status 401, body message and no cookie
— whether the email matches no user (first conjunct) or the user exists but
the password does not match the stored bcrypt hash (second conjunct). -/
theorem login_uniform_401 (db : DB) (e p : String) (he : e ≠ "")
    (hp : p ≠ "") :
    (findUserByEmail db e = none →
       loginRoute db (some e) (some p) =
         { status := 401, message := "Email ou mot de passe invalide",
           cookie := none }) ∧
    (∀ u, findUserByEmail db e = some u →
       bcryptCompare p u.password = false →
       loginRoute db (some e) (some p) =
         { status := 401, message := "Email ou mot de passe invalide",
           cookie := none }) := by
  have hfe : falsy (some e) = false := by simp [falsy]; exact he
  have hfp : falsy (some p) = false := by simp [falsy]; exact hp
  constructor
  · intro hnone
    simp [loginRoute, hfe, hfp, hnone]
  · intro u hu hcmp
    simp [loginRoute, hfe, hfp, hu, hcmp]

/-- C6 witness: against a state holding only the user "b@x.com" with password
"pw", logging in as the unknown "a@x.com" and logging in as "b@x.com" with a
wrong password produce identical 401 responses. -/
theorem login_uniform_401_witness :
    loginRoute sampleDB (some "a@x.com") (some "pw") =
      { status := 401, message := "Email ou mot de passe invalide",
        cookie := none } ∧
    loginRoute sampleDB (some "b@x.com") (some "wrong") =
      { status := 401, message := "Email ou mot de passe invalide",
        cookie := none } :=
  ⟨(login_uniform_401 sampleDB "a@x.com" "pw" (by decide) (by decide)).1
     (by decide),
   (login_uniform_401 sampleDB "b@x.com" "wrong" (by decide) (by decide)).2
     sampleUser (by decide) (by decide)⟩

/-- C8 counterexample: an authenticated request (valid token of user id 2)
against a state whose posts table holds the targeted post 1 but whose users
table holds no row with id 2 — reachable because tokens live 12 hours while
boot force-wipes the tables — does not answer 201 and creates nothing: the
enforced foreign key on `Comments.UserId` rejects the insert and the catch
answers 500, refuting the claim's unconditional "if the Post exists, a
Comment row is created and the response status is 201". -/
theorem create_comment_dangling_user_counterexample :
    jwtVerify (jwtSign 2) = some 2 ∧
    findPostByPk sampleDB 1 = some samplePost ∧
    findUserByPk sampleDB 2 = none ∧
    createCommentRoute sampleDB (some (jwtSign 2)) 1 "hi" = (500, sampleDB) :=
  ⟨by decide, by decide, by decide, by decide⟩

/-- C8 amended: on the create-comment route with a valid token, a path id
matching no post answers 404 and inserts nothing; when the post exists but no
user row carries the authenticated id, the enforced foreign key makes the
insert fail and the route answers 500 with nothing inserted; when both exist,
a comment is inserted whose `PostId` is that post's primary key and whose
`UserId` is that user's id, answering 201 — so every comment references an
existing post and an existing user at creation time. -/
theorem create_comment_fk_enforced (db : DB) (tok : Token)
    (uid pid : Nat) (content : String) (hv : jwtVerify tok = some uid) :
    (findPostByPk db pid = none →
       createCommentRoute db (some tok) pid content = (404, db)) ∧
    (∀ post, findPostByPk db pid = some post →
       findUserByPk db uid = none →
       createCommentRoute db (some tok) pid content = (500, db)) ∧
    (∀ post user, findPostByPk db pid = some post →
       findUserByPk db uid = some user →
       createCommentRoute db (some tok) pid content =
         (201, { db with
                 comments := db.comments ++
                   [{ id := db.nextCommentId, content := content,
                      PostId := some pid, UserId := uid }],
                 nextCommentId := db.nextCommentId + 1 }) ∧
       post.id = pid ∧ post ∈ db.posts ∧ user.id = uid ∧ user ∈ db.users) := by
  refine ⟨?_, ?_, ?_⟩
  · intro h
    simp [createCommentRoute, isLoggedInJWT, hv, createCommentHandler, h]
  · intro post hpost huser
    simp [createCommentRoute, isLoggedInJWT, hv, createCommentHandler,
          hpost, huser]
  · intro post user hpost huser
    refine ⟨by simp [createCommentRoute, isLoggedInJWT, hv,
                     createCommentHandler, hpost, huser], ?_, ?_, ?_, ?_⟩
    · have h1 := List.find?_some hpost
      exact beq_iff_eq.mp h1
    · exact List.mem_of_find?_eq_some hpost
    · have h2 := List.find?_some huser
      exact beq_iff_eq.mp h2
    · exact List.mem_of_find?_eq_some huser

/-- C8 amended witness: with a valid token of user 9 the missing post 99
answers 404; with a valid token of user 2 and no user 2 the insert is
rejected with 500; with user 2 present the comment is inserted referencing
post 1 and user 2 with 201. -/
theorem create_comment_fk_enforced_witness :
    createCommentRoute sampleDB2 (some (jwtSign 9)) 99 "hi" =
      (404, sampleDB2) ∧
    createCommentRoute sampleDB (some (jwtSign 2)) 1 "hi" =
      (500, sampleDB) ∧
    (createCommentRoute sampleDB2 (some (jwtSign 2)) 1 "hi" =
      (201, { sampleDB2 with
              comments := sampleDB2.comments ++
                [{ id := sampleDB2.nextCommentId, content := "hi",
                   PostId := some 1, UserId := 2 }],
              nextCommentId := sampleDB2.nextCommentId + 1 }) ∧
      samplePost.id = 1 ∧ samplePost ∈ sampleDB2.posts ∧
      sampleUser2.id = 2 ∧ sampleUser2 ∈ sampleDB2.users) :=
  ⟨(create_comment_fk_enforced sampleDB2 (jwtSign 9) 9 99 "hi"
      (by decide)).1 (by decide),
   (create_comment_fk_enforced sampleDB (jwtSign 2) 2 1 "hi"
      (by decide)).2.1 samplePost (by decide) (by decide),
   (create_comment_fk_enforced sampleDB2 (jwtSign 2) 2 1 "hi"
      (by decide)).2.2 samplePost sampleUser2 (by decide) (by decide)⟩

/-- Array key search is the disjunction over the elements. -/
theorem jsonListHasKey_eq_any (l : List Json) (k : String) :
    jsonListHasKey l k = l.any (fun j => jsonHasKey j k) := by
  induction l with
  | nil => rfl
  | cons j js ih => simp [jsonListHasKey, ih]

/-- An included author, present or null, serializes without a password key. -/
theorem hasKey_optUserPublic (o : Option UserRow) :
    jsonHasKey (serializeOptUserPublic o) "password" = false := by
  cases o <;> rfl

/-- A nullable numeric column serializes without any key. -/
theorem hasKey_optNat (o : Option Nat) (k : String) :
    jsonHasKey (jsonOfOptNat o) k = false := by
  cases o <;> rfl

/-- A comment serialized with its projected author carries no password key. -/
theorem hasKey_commentWithAuthor (db : DB) (c : CommentRow) :
    jsonHasKey (serializeCommentWithAuthor db c) "password" = false := by
  simp [serializeCommentWithAuthor, jsonHasKey, jsonFieldsHasKey,
        hasKey_optUserPublic, hasKey_optNat]

/-- A post serialized with its projected author and its comments carries no
password key. -/
theorem hasKey_postFull (db : DB) (p : PostRow) :
    jsonHasKey (serializePostFull db p) "password" = false := by
  simp [serializePostFull, jsonHasKey, jsonFieldsHasKey, hasKey_optUserPublic,
        jsonListHasKey_eq_any, List.any_map, Function.comp]
  intro x c _ _ hx
  exact hx ▸ hasKey_commentWithAuthor db c

/-- C7: whatever the database holds, the `GET /posts` document contains no
`password` key anywhere — every embedded author, of a post or of a comment,
is serialized through the id-and-email projection (second conjunct). -/
theorem get_posts_never_exposes_password (db : DB) :
    jsonHasKey (getPostsRoute db).2 "password" = false ∧
    ∀ u, serializeUserPublic u =
      Json.obj [("id", Json.num u.id), ("email", Json.str u.email)] := by
  refine ⟨?_, fun u => rfl⟩
  show jsonListHasKey (db.posts.map (serializePostFull db)) "password" = false
  rw [jsonListHasKey_eq_any]
  refine List.any_eq_false.mpr ?_
  intro j hj
  obtain ⟨p, _, rfl⟩ := List.mem_map.mp hj
  simp [hasKey_postFull]

/-- C10: every user row is serialized into the `GET /users` document with all
of its columns — the stored password hash among them — because `findAll` is
called with no attribute projection; in particular the serialized row does
carry a `password` key, in contrast with `GET /posts`. -/
theorem get_users_returns_password (db : DB) (u : UserRow)
    (hu : u ∈ db.users) :
    serializeUserFull u ∈ jsonArrElems (getUsersRoute db).2 ∧
    serializeUserFull u =
      Json.obj [("id", Json.num u.id), ("username", jsonOfOptStr u.username),
                ("email", Json.str u.email),
                ("password", Json.str u.password)] ∧
    jsonHasKey (serializeUserFull u) "password" = true := by
  refine ⟨?_, rfl, ?_⟩
  · simp only [getUsersRoute, jsonArrElems]
    exact List.mem_map_of_mem _ hu
  · simp [serializeUserFull, jsonHasKey, jsonFieldsHasKey]

/-- C10 witness: the sample user's row, with its stored bcrypt hash, appears
as-is in the `GET /users` document of the sample database. -/
theorem get_users_returns_password_witness :
    sampleUser ∈ sampleDB.users ∧
    (serializeUserFull sampleUser ∈ jsonArrElems (getUsersRoute sampleDB).2 ∧
     serializeUserFull sampleUser =
       Json.obj [("id", Json.num sampleUser.id),
                 ("username", jsonOfOptStr sampleUser.username),
                 ("email", Json.str sampleUser.email),
                 ("password", Json.str sampleUser.password)] ∧
     jsonHasKey (serializeUserFull sampleUser) "password" = true) :=
  ⟨by decide, get_users_returns_password sampleDB sampleUser (by decide)⟩
